import Mathlib

/-
Verification model of the claudeclaw weather-arbitrage trader.

Shallow embedding of:
  * trader/polymarket-trader/scripts/weather_arb.py
      (ensemble aggregation, probability mapping, entry analysis)
  * trader/polymarket-trader/scripts/early_exit_manager.py
      (Position record, profit-target / stop-loss checks)
  * trader/autonomous_trader_v2.py
      (exit triggers, consensus hold, monitoring decision, opportunity scan)

Conventions of the embedding:
  * Python floats are modelled as exact rationals (ℚ).
  * Timestamps are abstracted: a market_date string is represented by the
    result of parsing it — an `Option ℚ` holding the hours from "now" until
    resolution (`none` = the string is not ISO-parseable).  `datetime.now()`
    is thereby fixed as the origin of the time axis for one cycle.
  * Network fetches (forecast sources, CLOB prices, balances) are abstracted
    by passing the fetched data in as arguments; the balance observed by the
    in-loop re-check of scan_and_trade is modelled as stable within a cycle.
  * Order submission is modelled as always succeeding (the exception path of
    the placement loop only skips a candidate, which is subsumed by the
    `live_price = none` case).
-/

/- ============================================================ -/
/- Ensemble aggregator — weather_arb.py                          -/
/- ============================================================ -/

/-- One source's forecast as returned by a get_forecast_* function of
weather_arb.py: a dict with "source", "high_c", optional "low_c", and
(for the national sources) "is_local": True.  NOAA dicts carry no
"is_local" key, which reads back as `false`. -/
structure SForecast where
  source : String
  high_c : ℚ
  low_c : Option ℚ
  is_local : Bool
deriving DecidableEq, Repr

/-- The dict returned by get_ensemble_forecast (weather_arb.py lines
472-484).  `disagreement_c` is stored unrounded; the Python code rounds it
to 2 decimals for reporting only, which no verified property depends on. -/
structure EnsembleResult where
  high_c : ℚ
  low_c : ℚ
  confidence : ℚ
  sources : List String
  source_count : ℕ
  spread_c : Option ℚ
  local_disagrees : Bool
  disagreement_c : ℚ
deriving DecidableEq, Repr

/-- Python dict lookup `w.get(s, d)` on an association list; a duplicate key
keeps the last binding, as a Python dict literal does, hence the search
from the right. -/
def wLookup (m : List (String × ℚ)) (s : String) (d : ℚ) : ℚ :=
  match m.reverse.find? (fun p => p.1 == s) with
  | some p => p.2
  | none => d

/-- The weight dict built in get_ensemble_forecast lines 424-441. -/
def weightMap (is_us : Bool) (local_forecast : Option SForecast) : List (String × ℚ) :=
  if is_us then
    [("noaa", 2/5), ("visual_crossing", 7/20), ("open_meteo", 1/4)]
  else
    match local_forecast with
    | some lf => [(lf.source, 1/2), ("open_meteo", 1/4), ("visual_crossing", 1/4)]
    | none => [("open_meteo", 1/2), ("visual_crossing", 1/2)]

/-- Line 444: `total_weight = sum(w.get(s, 0) for s in available_sources)`. -/
def total_configured_weight (all_forecasts : List SForecast) (w : List (String × ℚ)) : ℚ :=
  (all_forecasts.map (fun f => wLookup w f.source 0)).sum

/-- Lines 446-454: if `total_weight == 0` every responding source is
re-weighted to 1 and the divisor becomes the source count; otherwise the
weighted sum is divided by the sum of the configured weights of the
responders (numerator default weight 1 for a source missing from the dict). -/
def weighted_high (all_forecasts : List SForecast) (w : List (String × ℚ)) : ℚ :=
  if total_configured_weight all_forecasts w = 0 then
    (all_forecasts.map (fun f => f.high_c)).sum / (all_forecasts.length : ℚ)
  else
    (all_forecasts.map (fun f => f.high_c * wLookup w f.source 1)).sum
      / total_configured_weight all_forecasts w

/-- Lines 455-461: weighted low over the sources that reported a low, same
divisor as the high; fallback `weighted_high - 10` when no source has one. -/
def weighted_low (all_forecasts : List SForecast) (w : List (String × ℚ)) : ℚ :=
  if all_forecasts.filterMap (fun f => f.low_c) = [] then
    weighted_high all_forecasts w - 10
  else if total_configured_weight all_forecasts w = 0 then
    (all_forecasts.filterMap (fun f => f.low_c)).sum / (all_forecasts.length : ℚ)
  else
    (all_forecasts.filterMap (fun f => f.low_c.map (fun lc => lc * wLookup w f.source 1))).sum
      / total_configured_weight all_forecasts w

/-- Python max() over a nonempty list (default 0 is never used by the code,
which guards emptiness first). -/
def listMax : List ℚ → ℚ
  | [] => 0
  | x :: xs => xs.foldl max x

/-- Python min() over a nonempty list. -/
def listMin : List ℚ → ℚ
  | [] => 0
  | x :: xs => xs.foldl min x

/-- Line 464: `high_spread = max(high_c_values) - min(high_c_values)`. -/
def spread_of (l : List SForecast) : ℚ :=
  listMax (l.map (fun f => f.high_c)) - listMin (l.map (fun f => f.high_c))

/-- Line 489: mean of the global (non-local) sources' highs. -/
def global_mean (l : List SForecast) : ℚ :=
  (l.map (fun f => f.high_c)).sum / (l.length : ℚ)

/-- Lines 463-469: spread-derived confidence, the exactly-3-sources boost,
and the single-source fallback 0.6. -/
def base_confidence (n : ℕ) (high_spread : ℚ) : ℚ :=
  if 2 ≤ n then
    if n = 3 ∧ high_spread ≤ 2 then
      min (49/50) (max (3/10) (min (19/20) (1 - (high_spread - 1) / 8)) + 1/10)
    else
      max (3/10) (min (19/20) (1 - (high_spread - 1) / 8))
  else 3/5

/-- The result dict as first assembled (lines 472-484), before the
disagreement check.  When fewer than 2 sources respond the Python spread is
None; here `spread_c` is `none` and the spread argument of
`base_confidence` is ignored by its n<2 branch. -/
def ensemble_base (all_forecasts : List SForecast) (w : List (String × ℚ)) : EnsembleResult :=
  { high_c := weighted_high all_forecasts w
    low_c := weighted_low all_forecasts w
    confidence := base_confidence all_forecasts.length (spread_of all_forecasts)
    sources := all_forecasts.map (fun f => f.source)
    source_count := all_forecasts.length
    spread_c := if 2 ≤ all_forecasts.length then some (spread_of all_forecasts) else none
    local_disagrees := false
    disagreement_c := 0 }

/-- Lines 486-494: if a local source disagrees with the global average by
more than 2°C, cap confidence at 0.50 and set the flag. -/
def apply_disagreement (res0 : EnsembleResult) (global_forecasts : List SForecast)
    (local_forecast : Option SForecast) : EnsembleResult :=
  match local_forecast with
  | some lf =>
    if global_forecasts ≠ [] then
      if 2 < |lf.high_c - global_mean global_forecasts| then
        { res0 with
          confidence := min res0.confidence (1/2)
          local_disagrees := true
          disagreement_c := |lf.high_c - global_mean global_forecasts| }
      else res0
    else res0
  | none => res0

/-- get_ensemble_forecast (weather_arb.py lines 377-496).  The network
fetches are abstracted: `global_forecasts` is the list of responding global
sources (Open-Meteo / Visual Crossing, in fetch order) and `local_forecast`
the responding national source, if any. -/
def get_ensemble_forecast (global_forecasts : List SForecast)
    (local_forecast : Option SForecast) (is_us : Bool) : Option EnsembleResult :=
  if global_forecasts ++ local_forecast.toList = [] then none
  else
    some (apply_disagreement
      (ensemble_base (global_forecasts ++ local_forecast.toList) (weightMap is_us local_forecast))
      global_forecasts local_forecast)

/-- The high estimate the spec's words prescribe for a partial response:
equal weight 1/n for every responding source. -/
def equal_weight_high (all_forecasts : List SForecast) : ℚ :=
  (all_forecasts.map (fun f => f.high_c)).sum / (all_forecasts.length : ℚ)

/-- A forecast entry after prepare_forecasts_for_market: carries a "high"
in the market's native unit. -/
structure MarketForecast where
  source : String
  high : ℚ
  is_local : Bool
deriving DecidableEq, Repr

/-- prepare_forecasts_for_market (weather_arb.py lines 498-519). -/
def prepare_forecasts_for_market (forecasts : List SForecast) (is_us_market : Bool) :
    List MarketForecast :=
  forecasts.map (fun f =>
    { source := f.source
      high := if is_us_market then f.high_c * 9 / 5 + 32 else f.high_c
      is_local := f.is_local })

/- ============================================================ -/
/- Probability mapping — weather_arb.py calculate_probability    -/
/- ============================================================ -/

/-- Line 699-700: `adjusted_std = 1.5 * (1.5 - confidence)`. -/
def adjusted_std (confidence : ℚ) : ℚ := (3/2) * (3/2 - confidence)

/-- The shared directional branch of calculate_probability (lines 702-724):
the is_or_below and is_or_higher arms are textually identical up to the sign
of diff, so they are factored into one function of diff. -/
def directional_prob (diff std : ℚ) : ℚ :=
  if std ≤ diff then 9/10
  else if 0 ≤ diff then 1/2 + diff / std * (2/5)
  else if -std ≤ diff then 1/10 + (diff + std) / std * (2/5)
  else 1/20

/-- calculate_probability before the final clamp (lines 702-736). -/
def raw_probability (forecast_temp_c temp_value : ℚ)
    (is_or_below is_or_higher : Bool) (confidence : ℚ) : ℚ :=
  match is_or_below, is_or_higher with
  | true, _ => directional_prob (temp_value - forecast_temp_c) (adjusted_std confidence)
  | false, true => directional_prob (forecast_temp_c - temp_value) (adjusted_std confidence)
  | false, false =>
    if |forecast_temp_c - temp_value| ≤ 1/2 then 9/20
    else if |forecast_temp_c - temp_value| ≤ 1 then 3/10
    else if |forecast_temp_c - temp_value| ≤ adjusted_std confidence then 3/20
    else 1/20

/-- calculate_probability (weather_arb.py lines 696-738), including the
final clamp `max(0.02, min(0.98, prob))`. -/
def calculate_probability (forecast_temp_c temp_value : ℚ)
    (is_or_below is_or_higher : Bool) (confidence : ℚ) : ℚ :=
  max (1/50) (min (49/50)
    (raw_probability forecast_temp_c temp_value is_or_below is_or_higher confidence))

/- ============================================================ -/
/- Positions and exits — early_exit_manager.py, autonomous_trader_v2.py -/
/- ============================================================ -/

/-- The Position dataclass of early_exit_manager.py (lines 22-40).
`market_date` is the parse abstraction described in the header;
`original_edge` is `Option` because `recalculate_edge` guards a missing
attribute with `getattr(..., None)`. -/
structure Position where
  market_name : String
  condition_id : String
  token_id : String
  side : String
  entry_price : ℚ
  shares : ℚ
  cost_basis : ℚ
  entry_date : String
  order_id : String
  original_edge : Option ℚ
  threshold_temp_f : ℚ
  city : String
  market_date : Option ℚ
  is_us_market : Bool
  forecast_sources : String
deriving DecidableEq, Repr

/-- hours_to_resolution (autonomous_trader_v2.py lines 83-91): the parse
abstraction makes it the identity — `some t` hours for a parseable date,
`none` for an unparseable one. -/
def hours_to_resolution (market_date : Option ℚ) : Option ℚ := market_date

/-- parse_resolution_time (lines 296-304): an unparseable date falls back
to now + 30 days, i.e. 720 hours from now. -/
def parse_resolution_time (market_date : Option ℚ) : ℚ := market_date.getD 720

/-- position_size_for (lines 74-80). -/
def position_size_for (balance_usdc : ℚ) : ℚ :=
  if balance_usdc < 10 then 0
  else if balance_usdc < 100 then 5
  else (Rat.ceil (balance_usdc / 100) : ℚ) * 5

/-- check_profit_target (early_exit_manager.py lines 129-136). -/
def check_profit_target (position : Position) (current_price : ℚ) : Bool :=
  decide (position.cost_basis * (13/10) ≤ position.shares * current_price)

/-- check_stop_loss (early_exit_manager.py lines 139-146). -/
def check_stop_loss (position : Position) (current_price : ℚ) : Bool :=
  decide (position.shares * current_price ≤ position.cost_basis * (4/5))

/-- recalculate_edge (autonomous_trader_v2.py lines 231-251).  The YES and
NO branches of the source compute the same expression, so no branch on
side is needed. -/
def recalculate_edge (position : Position) (current_price : ℚ) : ℚ :=
  match position.original_edge with
  | none => 0
  | some original_edge =>
    max ((position.entry_price + original_edge / 100 - current_price) * 100) 0

/-- The exit triggers of check_exit_triggers, in priority order. -/
inductive Trigger where
  | time
  | stop_loss
  | edge_evap
  | profit
deriving DecidableEq, Repr

/-- The `near_resolution` test of check_exit_triggers: a known
time-to-resolution under 8 hours. -/
def ttl_below_8 : Option ℚ → Bool
  | some t => decide (t < 8)
  | none => false

/-- check_exit_triggers (autonomous_trader_v2.py lines 254-293):
time, then (outside the final 8 h) stop loss and edge evaporation, then
profit target; the reason strings are dropped. -/
def check_exit_triggers (position : Position) (current_price : ℚ) : Option Trigger :=
  if ttl_below_8 (hours_to_resolution position.market_date) then some Trigger.time
  else if ttl_below_8 (hours_to_resolution position.market_date) = false
      ∧ position.shares * current_price ≤ position.cost_basis * (4/5) then
    some Trigger.stop_loss
  else if ttl_below_8 (hours_to_resolution position.market_date) = false
      ∧ recalculate_edge position current_price < 10 then
    some Trigger.edge_evap
  else if position.cost_basis * (13/10) ≤ position.shares * current_price then
    some Trigger.profit
  else none

/-- get_required_margin (autonomous_trader_v2.py lines 307-329). -/
def get_required_margin (hours_remaining : ℚ) (is_us_market : Bool) : ℚ :=
  if is_us_market then
    if 12 < hours_remaining then 5
    else if 6 < hours_remaining then 4
    else 2
  else
    if 12 < hours_remaining then 3
    else if 6 < hours_remaining then 2
    else 1

/-- Python max() of the highs of a nonempty MarketForecast list. -/
def maxHigh : List MarketForecast → ℚ
  | [] => 0
  | f :: fs => fs.foldl (fun a g => max a g.high) f.high

/-- Python min() of the highs of a nonempty MarketForecast list. -/
def minHigh : List MarketForecast → ℚ
  | [] => 0
  | f :: fs => fs.foldl (fun a g => min a g.high) f.high

/-- The final P&L gate of check_consensus_hold (lines 396-400). -/
def pnl_ok (position : Position) (current_price : ℚ) : Bool :=
  if (position.shares * current_price - position.cost_basis) / position.cost_basis * 100
      < -5 then false
  else true

/-- check_consensus_hold (autonomous_trader_v2.py lines 332-407):
needs ≥2 sources with a local one, 0.5h–24h to resolution, every source on
the position's side of the threshold with margin at least the tiered
requirement, and P&L no worse than −5%. -/
def check_consensus_hold (position : Position) (forecasts : List MarketForecast)
    (threshold : ℚ) (is_us_market : Bool) (current_price : ℚ) : Bool :=
  if forecasts.length < 2 then false
  else if forecasts.any (fun f => f.is_local) = false then false
  else if 24 < parse_resolution_time position.market_date then false
  else if parse_resolution_time position.market_date < 1/2 then false
  else if position.side = "NO" then
    if ∀ f ∈ forecasts, f.high < threshold then
      if threshold - maxHigh forecasts
          < get_required_margin (parse_resolution_time position.market_date) is_us_market then
        false
      else pnl_ok position current_price
    else false
  else
    if ∀ f ∈ forecasts, threshold ≤ f.high then
      if minHigh forecasts - threshold
          < get_required_margin (parse_resolution_time position.market_date) is_us_market then
        false
      else pnl_ok position current_price
    else false

/-- The per-position outcome of one monitoring pass. -/
inductive MonitorAction where
  | consensusHold
  | exitWith (t : Trigger)
  | hold
deriving DecidableEq, Repr

/-- The decision core of monitor_positions (autonomous_trader_v2.py lines
446-536): Priority 0 consensus hold first; only when it does not hold do
the four exit triggers run.  The forecast/threshold plumbing of lines
449-494 is abstracted into the `forecasts` and `threshold` arguments. -/
def monitor_decision (position : Position) (forecasts : List MarketForecast)
    (threshold : ℚ) (is_us_market : Bool) (current_price : ℚ) : MonitorAction :=
  if check_consensus_hold position forecasts threshold is_us_market current_price then
    MonitorAction.consensusHold
  else
    match check_exit_triggers position current_price with
    | some t => MonitorAction.exitWith t
    | none => MonitorAction.hold

/- ============================================================ -/
/- Opportunity scan — autonomous_trader_v2.py scan_and_trade     -/
/- ============================================================ -/

/-- Python str.lower() restricted to what the kernel can compute. -/
def py_lower (s : String) : String := String.mk (s.data.map Char.toLower)

/-- Python str.upper(). -/
def py_upper (s : String) : String := String.mk (s.data.map Char.toUpper)

/-- Python substring test `"YES" in s`. -/
def has_yes : List Char → Bool
  | 'Y' :: 'E' :: 'S' :: _ => true
  | _ :: rest => has_yes rest
  | [] => false

/-- Line 655: `side = "YES" if "YES" in action.upper() else "NO"`. -/
def entry_side (action : String) : String :=
  if has_yes (py_upper action).data then "YES" else "NO"

/-- One opportunity dict as produced by analyze_weather_event, with the
fields read by scan_and_trade; `live_price` is the price get_token_price
returns for this candidate at placement time (`none` = no token data). -/
structure Opp where
  city : String
  action : String
  conf : ℚ
  edge : ℚ
  yes_p : ℚ
  no_p : ℚ
  sources : List String
  has_local : Bool
  local_disagrees : Bool
  indiv_high_c : List ℚ
  liquidity : ℚ
  slug : String
  forecast_prob : ℚ
  live_price : Option ℚ
deriving DecidableEq, Repr

/-- Line 635: `is_us = 'noaa' in [s.lower() for s in sources]`. -/
def opp_is_us (opp : Opp) : Bool :=
  (opp.sources.map py_lower).contains "noaa"

/-- Line 656: the price of the side being bought. -/
def entry_buy_price (opp : Opp) : ℚ :=
  if entry_side opp.action = "YES" then opp.yes_p else opp.no_p

/-- The per-opportunity entry filter of scan_and_trade (lines 639-677):
confidence floor, disagreement veto, tiered edge floor, 30–70¢ price band,
source-count rules, the non-US 1°C agreement check, liquidity floor. -/
def entryFilter (opp : Opp) : Bool :=
  if opp.conf < 4/5 then false
  else if opp.local_disagrees = true then false
  else if opp.edge < (if opp_is_us opp = true ∨ opp.has_local = true then 20 else 25) then false
  else if ¬ (3/10 ≤ entry_buy_price opp ∧ entry_buy_price opp ≤ 7/10) then false
  else if opp_is_us opp = true ∧ opp.sources.length < 3 then false
  else if opp_is_us opp = false ∧ opp.sources.length < 2 then false
  else if opp_is_us opp = false ∧ opp.indiv_high_c ≠ []
      ∧ 1 < listMax opp.indiv_high_c - listMin opp.indiv_high_c then false
  else if opp.liquidity < 500 then false
  else true

/-- One market inside an event's raw market list (slug → conditionId). -/
structure EvtMarket where
  slug : String
  conditionId : String
deriving DecidableEq, Repr

/-- One weather event as scanned: `parsed_ok` abstracts whether
parse_weather_event succeeded and the date was parseable; `hours_away` is
the hours until the event date. -/
structure Event where
  id : String
  parsed_ok : Bool
  hours_away : ℚ
  markets : List EvtMarket
  opps : List Opp
deriving DecidableEq, Repr

/-- An open position as seen by the scan (condition and event ids). -/
structure PositionRec where
  condition_id : String
  event_id : String
deriving DecidableEq, Repr

/-- A pending-order record of open_orders.json. -/
structure OrderRec where
  condition_id : String
  event_id : String
  status : String
deriving DecidableEq, Repr

/-- One entry of the `qualifying` list (lines 701-720). -/
structure QCand where
  condition_id : String
  event_id : String
  conf : ℚ
  edge : ℚ
  is_us : Bool
  has_local : Bool
  side : String
  buy_price : ℚ
  forecast_prob : ℚ
  live_price : Option ℚ
deriving DecidableEq, Repr

/-- Lines 679-691: resolve the condition id from the event's market list by
slug; a missing or empty conditionId skips the candidate. -/
def resolveCid (ev : Event) (slug : String) : Option String :=
  match ev.markets.find? (fun m => m.slug == slug) with
  | some m => if m.conditionId = "" then none else some m.conditionId
  | none => none

/-- The qualification pass of scan_and_trade for one event (lines 606-720):
date window 4–72 h, the entry filter, condition-id resolution, and the
duplicate checks against the sets built before the loop. -/
def qualifyEvent (existing_cids existing_eids : List String) (ev : Event) : List QCand :=
  if ev.parsed_ok = false then []
  else if ev.hours_away < 4 ∨ 72 < ev.hours_away then []
  else
    ev.opps.filterMap (fun opp =>
      if entryFilter opp = false then none
      else
        match resolveCid ev opp.slug with
        | none => none
        | some cid =>
          if cid ∈ existing_cids then none
          else if ev.id ≠ "" ∧ ev.id ∈ existing_eids then none
          else some {
            condition_id := cid
            event_id := ev.id
            conf := opp.conf
            edge := opp.edge
            is_us := opp_is_us opp
            has_local := opp.has_local
            side := entry_side opp.action
            buy_price := entry_buy_price opp
            forecast_prob := opp.forecast_prob
            live_price := opp.live_price })

/-- Orders with status OPEN (lines 560-561). -/
def live_open_orders (open_orders : List OrderRec) : List OrderRec :=
  open_orders.filter (fun o => o.status == "OPEN")

/-- Lines 595-596: the condition ids of open positions and live orders. -/
def existing_cids (positions : List PositionRec) (open_orders : List OrderRec) : List String :=
  positions.map (fun p => p.condition_id)
    ++ (live_open_orders open_orders).map (fun o => o.condition_id)

/-- Line 599: the event ids tracked for the opposing-side check — built
from open positions only. -/
def existing_event_ids (positions : List PositionRec) : List String :=
  positions.map (fun p => p.event_id)

/-- Line 722: `qualifying.sort(key=lambda x: x['edge'], reverse=True)` —
a stable descending sort on confidence-adjusted edge. -/
def qualifying_candidates (events : List Event) (positions : List PositionRec)
    (open_orders : List OrderRec) : List QCand :=
  List.insertionSort (fun a b => b.edge ≤ a.edge)
    ((events.map
      (qualifyEvent (existing_cids positions open_orders) (existing_event_ids positions))).flatten)

/-- The placement loop of scan_and_trade (lines 730-829): per candidate a
balance re-check (break), live-price re-validation, the 30–70¢ band, the
re-computed confidence-adjusted edge against the tiered floor, then a GTC
order.  No duplicate or same-event re-check happens here. -/
def placeLoop (balance pos_size : ℚ) (maxNew : ℕ) : ℕ → List QCand → List OrderRec
  | _, [] => []
  | orders_placed, c :: rest =>
    if maxNew ≤ orders_placed then []
    else if balance < ((orders_placed : ℚ) + 1) * pos_size + 5 then []
    else
      match c.live_price with
      | none => placeLoop balance pos_size maxNew orders_placed rest
      | some fresh =>
        if ¬ (3/10 ≤ fresh ∧ fresh ≤ 7/10) then
          placeLoop balance pos_size maxNew orders_placed rest
        else if (c.forecast_prob - fresh) * 100 * c.conf
            < (if c.is_us = true ∨ c.has_local = true then 20 else 25) then
          placeLoop balance pos_size maxNew orders_placed rest
        else
          { condition_id := c.condition_id, event_id := c.event_id, status := "OPEN" }
            :: placeLoop balance pos_size maxNew (orders_placed + 1) rest

/-- scan_and_trade (autonomous_trader_v2.py lines 548-844), returning the
orders placed in the cycle: capacity check (slots, 3-per-run cap), capital
check (tier size, locked capital, $5 buffer), qualification, ranking, and
the placement loop over a 3× look-ahead slice. -/
def scan_and_trade (events : List Event) (positions : List PositionRec)
    (open_orders : List OrderRec) (balance_usdc : ℚ) : List OrderRec :=
  let maxSlots : ℤ :=
    min (10 - (((positions.length : ℤ)) + ((live_open_orders open_orders).length : ℤ))) 3
  if maxSlots ≤ 0 then []
  else if position_size_for balance_usdc = 0 then []
  else
    let pos_size := position_size_for balance_usdc
    let available_capital :=
      balance_usdc - ((live_open_orders open_orders).length : ℚ) * pos_size - 5
    let max_by_capital : ℤ :=
      if 0 < available_capital then Rat.floor (available_capital / pos_size) else 0
    let maxNew : ℤ := min maxSlots max_by_capital
    if maxNew ≤ 0 then []
    else
      placeLoop balance_usdc pos_size maxNew.toNat 0
        ((qualifying_candidates events positions open_orders).take (maxNew.toNat * 3))

/-- The mutual-exclusivity property the spec claims for one scan cycle: the
placed orders target pairwise distinct markets and pairwise distinct event
groups, and none shares a market or event group with an open position or a
pending order. -/
def event_exclusive (placed : List OrderRec) (positions : List PositionRec)
    (open_orders : List OrderRec) : Prop :=
  (placed.map (fun o => o.condition_id)).Nodup
  ∧ (placed.map (fun o => o.event_id)).Nodup
  ∧ ∀ o ∈ placed,
      (∀ p ∈ positions, o.condition_id ≠ p.condition_id ∧ o.event_id ≠ p.event_id)
      ∧ ∀ q ∈ open_orders, o.condition_id ≠ q.condition_id ∧ o.event_id ≠ q.event_id

/- ============================================================ -/
/- Concrete instances used by counterexamples and witnesses      -/
/- ============================================================ -/

/-- A concrete non-US position: entered YES at 50¢, 10 shares, $5 cost,
10 hours to resolution, 30% edge at entry. -/
def basePosition : Position :=
  { market_name := "Wellington high temp"
    condition_id := "c1"
    token_id := "t1"
    side := "YES"
    entry_price := 1/2
    shares := 10
    cost_basis := 5
    entry_date := "2026-02-18"
    order_id := "o1"
    original_edge := some 30
    threshold_temp_f := 77
    city := "wellington"
    market_date := some 10
    is_us_market := false
    forecast_sources := "metservice,open_meteo" }

/-- Converted forecasts for the consensus-hold scenario: both sources above
a 25°C threshold, one local. -/
def cfor1 : List MarketForecast :=
  [{ source := "metservice", high := 28, is_local := true },
   { source := "open_meteo", high := 27, is_local := false }]

/-- Like basePosition but with only a 10% edge at entry, so the
reconstructed edge collapses at a 65¢ price. -/
def cpos8 : Position := { basePosition with original_edge := some 10 }

/-- A position 7.9 hours from resolution. -/
def cpos9 : Position := { basePosition with market_date := some (79/10) }

/-- A position whose market_date string failed to parse. -/
def cpos10 : Position := { basePosition with market_date := none }

/-- Responding globals for the disagreement witness: Open-Meteo 20°C. -/
def cG2 : List SForecast :=
  [{ source := "open_meteo", high_c := 20, low_c := none, is_local := false }]

/-- The local source disagreeing by 5°C. -/
def cL2 : SForecast :=
  { source := "metservice", high_c := 25, low_c := none, is_local := true }

/-- The ensemble result for cG2 with cL2 on a non-US market. -/
def r2 : EnsembleResult :=
  { high_c := 70/3, low_c := 40/3, confidence := 1/2
    sources := ["open_meteo", "metservice"], source_count := 2
    spread_c := some 5, local_disagrees := true, disagreement_c := 5 }

/-- A US market where NOAA failed to respond: only the two globals. -/
def cG4 : List SForecast :=
  [{ source := "open_meteo", high_c := 20, low_c := none, is_local := false },
   { source := "visual_crossing", high_c := 24, low_c := none, is_local := false }]

/-- The ensemble result for cG4 on a US market with no local response:
the configured weights 0.25 and 0.35 renormalize to 5/12 and 7/12. -/
def r4 : EnsembleResult :=
  { high_c := 67/3, low_c := 37/3, confidence := 5/8
    sources := ["open_meteo", "visual_crossing"], source_count := 2
    spread_c := some 4, local_disagrees := false, disagreement_c := 0 }

/-- Two agreeing globals, spread 1°C. -/
def cG7 : List SForecast :=
  [{ source := "open_meteo", high_c := 20, low_c := none, is_local := false },
   { source := "visual_crossing", high_c := 21, low_c := none, is_local := false }]

/-- The ensemble result for cG7 on a non-US market with no local source. -/
def r7 : EnsembleResult :=
  { high_c := 41/2, low_c := 21/2, confidence := 19/20
    sources := ["open_meteo", "visual_crossing"], source_count := 2
    spread_c := some 1, local_disagrees := false, disagreement_c := 0 }

/-- A non-US opportunity that used a local source and passes every filter
except that its two sources differ by 1.5°C. -/
def cOpp6 : Opp :=
  { city := "wellington"
    action := "BUY YES"
    conf := 9/10
    edge := 30
    yes_p := 1/2
    no_p := 1/2
    sources := ["metservice", "open_meteo"]
    has_local := true
    local_disagrees := false
    indiv_high_c := [27, 57/2]
    liquidity := 1000
    slug := "s1"
    forecast_prob := 9/10
    live_price := some (1/2) }

/-- A fully qualifying non-US opportunity for market slug s1. -/
def cOpp3a : Opp :=
  { city := "wellington"
    action := "BUY YES"
    conf := 9/10
    edge := 30
    yes_p := 1/2
    no_p := 1/2
    sources := ["metservice", "open_meteo"]
    has_local := true
    local_disagrees := false
    indiv_high_c := [27, 27]
    liquidity := 1000
    slug := "s1"
    forecast_prob := 9/10
    live_price := some (1/2) }

/-- The same opportunity on the sibling market s2 of the same event. -/
def cOpp3b : Opp := { cOpp3a with slug := "s2" }

/-- One event with two qualifying sibling markets. -/
def cEvent3 : Event :=
  { id := "E1"
    parsed_ok := true
    hours_away := 24
    markets := [{ slug := "s1", conditionId := "c1" }, { slug := "s2", conditionId := "c2" }]
    opps := [cOpp3a, cOpp3b] }

/-- A pending order already targeting a third market of the same event. -/
def cOrder0 : OrderRec := { condition_id := "c0", event_id := "E1", status := "OPEN" }

/- ============================================================ -/
/- Helper lemmas                                                 -/
/- ============================================================ -/

/-- With at least two sources and a spread of at most 2°C, the
spread-derived confidence is at least 7/8, boost or no boost. -/
theorem base_confidence_ge (n : ℕ) (s : ℚ) (hn : 2 ≤ n) (hs : s ≤ 2) :
    7/8 ≤ base_confidence n s := by
  unfold base_confidence
  rw [if_pos hn]
  have hc : (7 : ℚ)/8 ≤ max (3/10) (min (19/20) (1 - (s - 1) / 8)) :=
    le_trans (le_min (by norm_num) (by linarith)) (le_max_right _ _)
  split
  · exact le_min (by norm_num) (by linarith)
  · exact hc

/-- A dict lookup over positive values with a positive default is positive. -/
theorem wLookup_pos (m : List (String × ℚ)) (hm : ∀ p ∈ m, 0 < p.2) (s : String) (d : ℚ)
    (hd : 0 < d) : 0 < wLookup m s d := by
  unfold wLookup
  split
  · next p hp => exact hm p (List.mem_reverse.mp (List.mem_of_find?_eq_some hp))
  · exact hd

/-- Every configured weight of the aggregator is positive. -/
theorem weightMap_entries_pos (is_us : Bool) (loc : Option SForecast) :
    ∀ p ∈ weightMap is_us loc, 0 < p.2 := by
  intro p hp
  unfold weightMap at hp
  cases is_us with
  | true =>
    simp only [if_true] at hp
    simp only [List.mem_cons, List.not_mem_nil, or_false] at hp
    rcases hp with rfl | rfl | rfl <;> norm_num
  | false =>
    simp only [Bool.false_eq_true, if_false] at hp
    cases loc with
    | none =>
      simp only [List.mem_cons, List.not_mem_nil, or_false] at hp
      rcases hp with rfl | rfl <;> norm_num
    | some lf =>
      simp only [List.mem_cons, List.not_mem_nil, or_false] at hp
      rcases hp with rfl | rfl | rfl <;> norm_num

/-- The disagreement step leaves a clean result unchanged when it does not
set the flag. -/
theorem apply_disagreement_of_flag (res0 : EnsembleResult) (g : List SForecast)
    (l : Option SForecast)
    (hflag : (apply_disagreement res0 g l).local_disagrees = false) :
    apply_disagreement res0 g l = res0 := by
  cases l with
  | none => rfl
  | some lf =>
    simp only [apply_disagreement] at hflag ⊢
    split_ifs at hflag ⊢ <;> rfl

/-- When the disagreement step sets the flag, the resulting confidence is at
most 1/2. -/
theorem apply_disagreement_confidence_le (res0 : EnsembleResult) (g : List SForecast)
    (l : Option SForecast) (h0 : res0.local_disagrees = false)
    (hflag : (apply_disagreement res0 g l).local_disagrees = true) :
    (apply_disagreement res0 g l).confidence ≤ 1/2 := by
  cases l with
  | none =>
    simp only [apply_disagreement] at hflag
    rw [h0] at hflag
    exact absurd hflag (by simp)
  | some lf =>
    simp only [apply_disagreement] at hflag ⊢
    split_ifs at hflag ⊢ <;> first | exact min_le_right _ _ | simp_all

/-- The disagreement step never changes the weighted high estimate. -/
theorem apply_disagreement_high (res0 : EnsembleResult) (g : List SForecast)
    (l : Option SForecast) :
    (apply_disagreement res0 g l).high_c = res0.high_c := by
  cases l with
  | none => rfl
  | some lf =>
    simp only [apply_disagreement]
    split_ifs <;> rfl

/-- Upper band of the directional probability. -/
theorem directional_prob_hi (d std : ℚ) (h : std ≤ d) : directional_prob d std = 9/10 := by
  unfold directional_prob
  rw [if_pos h]

/-- Lower band of the directional probability, strictly beyond the
uncertainty band. -/
theorem directional_prob_lo (d std : ℚ) (h0 : 0 < std) (h : d < -std) :
    directional_prob d std = 1/20 := by
  unfold directional_prob
  rw [if_neg (by linarith), if_neg (by linarith), if_neg (by linarith)]

/-- Inside the band the two source branches compute one and the same linear
interpolation. -/
theorem directional_prob_mid (d std : ℚ) (h0 : 0 < std) (h1 : -std ≤ d) (h2 : d < std) :
    directional_prob d std = 1/2 + d / std * (2/5) := by
  unfold directional_prob
  rw [if_neg (by linarith)]
  rcases le_or_lt 0 d with hd | hd
  · rw [if_pos hd]
  · rw [if_neg (by linarith), if_pos h1]
    have hne : std ≠ 0 := ne_of_gt h0
    field_simp
    ring

/-- The interpolated value stays inside the open band (0.10, 0.90). -/
theorem mid_bounds (d std : ℚ) (h0 : 0 < std) (h1 : -std ≤ d) (h2 : d < std) :
    1/10 ≤ 1/2 + d / std * (2/5) ∧ 1/2 + d / std * (2/5) < 9/10 := by
  have hq1 : (-1 : ℚ) ≤ d / std := by
    rw [le_div_iff₀ h0]; linarith
  have hq2 : d / std < 1 := (div_lt_one h0).mpr h2
  constructor <;> nlinarith

/-- The clamp to [0.02, 0.98] is the identity on values already inside. -/
theorem clamp_eq (x : ℚ) (h1 : 1/50 ≤ x) (h2 : x ≤ 49/50) :
    max (1/50) (min (49/50) x) = x := by
  rw [min_eq_right h2, max_eq_right h1]

/- ============================================================ -/
/- Claim theorems                                                -/
/- ============================================================ -/

/-- C1 (counterexample): a concrete position and forecast set on which every
Consensus Hold precondition holds and the position's value is exactly 130%
of cost basis — Profit Target would fire on its own — yet the monitoring
cycle returns CONSENSUS_HOLD and the Profit Target exit does not fire,
refuting the claim that profit-taking still fires under the veto. -/
theorem consensus_hold_profit_counterexample :
    check_consensus_hold basePosition cfor1 25 false (13/20) = true
    ∧ basePosition.cost_basis * (13/10) ≤ basePosition.shares * (13/20)
    ∧ check_exit_triggers basePosition (13/20) = some Trigger.profit
    ∧ monitor_decision basePosition cfor1 25 false (13/20) ≠ MonitorAction.exitWith Trigger.profit
    ∧ monitor_decision basePosition cfor1 25 false (13/20) = MonitorAction.consensusHold := by
  with_unfolding_all decide

/-- C1 (amended): whenever the Consensus Hold preconditions hold — at least
2 sources, one local, a parseable resolution time between 0.5 and 24 hours
out, every source on the position's side of the threshold with at least the
tiered required margin, and P&L no worse than −5% — the monitoring cycle
suppresses ALL exits, Profit Target included, and the action is
CONSENSUS_HOLD. -/
theorem consensus_hold_suppresses_all_exits
    (pos : Position) (forecasts : List MarketForecast) (threshold : ℚ)
    (is_us_market : Bool) (current_price : ℚ) (hrs : ℚ)
    (hn : 2 ≤ forecasts.length)
    (hloc : forecasts.any (fun f => f.is_local) = true)
    (hdate : pos.market_date = some hrs)
    (h24 : hrs ≤ 24) (h05 : 1/2 ≤ hrs)
    (hside :
      (pos.side = "NO" ∧ (∀ f ∈ forecasts, f.high < threshold)
        ∧ get_required_margin hrs is_us_market ≤ threshold - maxHigh forecasts)
      ∨ (pos.side ≠ "NO" ∧ (∀ f ∈ forecasts, threshold ≤ f.high)
        ∧ get_required_margin hrs is_us_market ≤ minHigh forecasts - threshold))
    (hpnl : -5 ≤ (pos.shares * current_price - pos.cost_basis) / pos.cost_basis * 100) :
    monitor_decision pos forecasts threshold is_us_market current_price
      = MonitorAction.consensusHold := by
  have hparse : parse_resolution_time pos.market_date = hrs := by
    unfold parse_resolution_time
    rw [hdate]
    rfl
  have hch : check_consensus_hold pos forecasts threshold is_us_market current_price = true := by
    unfold check_consensus_hold
    rw [hparse]
    rw [if_neg (by omega), if_neg (by simp [hloc]), if_neg (not_lt.mpr h24),
      if_neg (not_lt.mpr h05)]
    rcases hside with ⟨hNO, hall, hm⟩ | ⟨hYES, hall, hm⟩
    · rw [if_pos hNO, if_pos hall, if_neg (not_lt.mpr hm)]
      unfold pnl_ok
      rw [if_neg (not_lt.mpr hpnl)]
    · rw [if_neg hYES, if_pos hall, if_neg (not_lt.mpr hm)]
      unfold pnl_ok
      rw [if_neg (not_lt.mpr hpnl)]
  simp [monitor_decision, hch]

/-- C1 (witness): the amended theorem applied to the concrete position. -/
theorem consensus_hold_suppresses_all_exits_witness :
    monitor_decision basePosition cfor1 25 false (13/20) = MonitorAction.consensusHold :=
  consensus_hold_suppresses_all_exits basePosition cfor1 25 false (13/20) 10
    (by with_unfolding_all decide) (by with_unfolding_all decide) rfl
    (by with_unfolding_all decide) (by with_unfolding_all decide)
    (Or.inr ⟨by with_unfolding_all decide, by with_unfolding_all decide,
      by with_unfolding_all decide⟩)
    (by with_unfolding_all decide)

/-- C2: whenever get_ensemble_forecast reports `local_disagrees = true`, the
reported confidence is at most 0.50, for every input — the spread-derived
confidence and the 3-source boost notwithstanding. -/
theorem local_disagreement_caps_confidence
    (glob : List SForecast) (loc : Option SForecast) (is_us : Bool) (r : EnsembleResult)
    (h : get_ensemble_forecast glob loc is_us = some r)
    (hd : r.local_disagrees = true) :
    r.confidence ≤ 1/2 := by
  unfold get_ensemble_forecast at h
  split at h
  · simp at h
  · rw [Option.some_inj] at h
    subst h
    exact apply_disagreement_confidence_le _ _ _ rfl hd

/-- C2 (witness): a 5°C local/global disagreement yields the flag and a
confidence of exactly 0.50. -/
theorem local_disagreement_caps_confidence_witness :
    r2.local_disagrees = true ∧ r2.confidence ≤ 1/2 :=
  ⟨by with_unfolding_all decide,
   local_disagreement_caps_confidence cG2 (some cL2) false r2
     (by with_unfolding_all decide) (by with_unfolding_all decide)⟩

/-- C3 (code bug): one event with two sibling markets that both qualify; the
scan places GTC orders on both of them in the same cycle, and a pending
order in the same event group does not block either — the in-loop updates
of existing_cids / existing_event_ids (lines 814-815) are never read again,
so the event-group mutual-exclusivity the code's own comments aim for is
not enforced within a cycle. -/
theorem scan_places_two_orders_same_event :
    (scan_and_trade [cEvent3] [] [] 200).map (fun o => o.condition_id) = ["c1", "c2"]
    ∧ (scan_and_trade [cEvent3] [] [] 200).map (fun o => o.event_id) = ["E1", "E1"]
    ∧ ¬ event_exclusive (scan_and_trade [cEvent3] [] [] 200) [] []
    ∧ (scan_and_trade [cEvent3] [] [cOrder0] 200).map (fun o => o.event_id) = ["E1", "E1"]
    ∧ ¬ event_exclusive (scan_and_trade [cEvent3] [] [cOrder0] 200) [] [cOrder0] := by
  refine ⟨by with_unfolding_all decide, by with_unfolding_all decide, fun hx => ?_,
    by with_unfolding_all decide, fun hx => ?_⟩
  · exact absurd hx.2.1 (by with_unfolding_all decide)
  · exact absurd hx.2.1 (by with_unfolding_all decide)

/-- C4 (counterexample): on a US market where NOAA fails to respond, the two
responding globals keep their configured weights 0.25 and 0.35 renormalized
proportionally — the weighted high is 67/3 ≈ 22.33°C, not the equal-weight
mean 22°C the claim prescribes. -/
theorem ensemble_equal_weight_counterexample :
    get_ensemble_forecast cG4 none true = some r4
    ∧ equal_weight_high cG4 = 22
    ∧ r4.high_c = 67/3
    ∧ (67 : ℚ)/3 ≠ 22 := by
  with_unfolding_all decide

/-- C4 (amended): when some configured sources fail but the responding ones
carry a nonzero configured total weight, the weighted high renormalizes the
configured weights proportionally (divide by their sum), and no responding
estimate is dropped: every source's lookup weight is positive.  Equal
redistribution happens only in the degenerate total-weight-zero case. -/
theorem ensemble_weight_renormalization
    (glob : List SForecast) (loc : Option SForecast) (is_us : Bool) (r : EnsembleResult)
    (h : get_ensemble_forecast glob loc is_us = some r)
    (hT : total_configured_weight (glob ++ loc.toList) (weightMap is_us loc) ≠ 0)
    (s : String) :
    r.high_c = ((glob ++ loc.toList).map
        (fun f => f.high_c * wLookup (weightMap is_us loc) f.source 1)).sum
      / total_configured_weight (glob ++ loc.toList) (weightMap is_us loc)
    ∧ 0 < wLookup (weightMap is_us loc) s 1 := by
  refine ⟨?_, wLookup_pos _ (weightMap_entries_pos is_us loc) s 1 one_pos⟩
  unfold get_ensemble_forecast at h
  split at h
  · simp at h
  · rw [Option.some_inj] at h
    subst h
    rw [apply_disagreement_high]
    simp only [ensemble_base]
    unfold weighted_high
    rw [if_neg hT]

/-- C4 (witness): the amended theorem applied to the NOAA-missing input. -/
theorem ensemble_weight_renormalization_witness :
    r4.high_c = ((cG4 ++ (none : Option SForecast).toList).map
        (fun f => f.high_c * wLookup (weightMap true none) f.source 1)).sum
      / total_configured_weight (cG4 ++ (none : Option SForecast).toList) (weightMap true none)
    ∧ 0 < wLookup (weightMap true none) "open_meteo" 1 :=
  ensemble_weight_renormalization cG4 none true r4
    (by with_unfolding_all decide) (by with_unfolding_all decide) "open_meteo"

/-- C5 (counterexample): with confidence 0.5 the band is adjusted_std = 1.5;
a forecast below an AT_OR_ABOVE threshold by exactly adjusted_std gets
probability 0.10, not the 0.05 the claim's "by at least adjusted_std"
boundary prescribes. -/
theorem probability_boundary_counterexample :
    (43 : ℚ)/2 - 20 = adjusted_std (1/2)
    ∧ calculate_probability 20 (43/2) false true (1/2) = 1/10
    ∧ (1 : ℚ)/10 ≠ 1/20 := by
  with_unfolding_all decide

/-- C5 (amended): for confidence below 1.5 (positive band), an AT_OR_ABOVE
threshold maps to 0.90 at diff ≥ adjusted_std, to 0.05 only strictly beyond
adjusted_std below, and inside [−adjusted_std, adjusted_std) to the linear
interpolation 0.50 + 0.40·diff/adjusted_std — which is 0.10, not 0.05, at
the lower endpoint; symmetrically for AT_OR_BELOW. -/
theorem probability_band (f t c : ℚ) (hc : c < 3/2) :
    (adjusted_std c ≤ f - t → calculate_probability f t false true c = 9/10)
    ∧ (f - t < -adjusted_std c → calculate_probability f t false true c = 1/20)
    ∧ (-adjusted_std c ≤ f - t → f - t < adjusted_std c →
        calculate_probability f t false true c = 1/2 + (f - t) / adjusted_std c * (2/5))
    ∧ (adjusted_std c ≤ t - f → calculate_probability f t true false c = 9/10)
    ∧ (t - f < -adjusted_std c → calculate_probability f t true false c = 1/20)
    ∧ (-adjusted_std c ≤ t - f → t - f < adjusted_std c →
        calculate_probability f t true false c = 1/2 + (t - f) / adjusted_std c * (2/5)) := by
  have h0 : 0 < adjusted_std c := by
    unfold adjusted_std
    have h1 : (0 : ℚ) < 3/2 - c := by linarith
    exact mul_pos (by norm_num) h1
  have hup : calculate_probability f t false true c
      = max (1/50) (min (49/50) (directional_prob (f - t) (adjusted_std c))) := rfl
  have hdn : calculate_probability f t true false c
      = max (1/50) (min (49/50) (directional_prob (t - f) (adjusted_std c))) := rfl
  refine ⟨fun h => ?_, fun h => ?_, fun h1 h2 => ?_, fun h => ?_, fun h => ?_, fun h1 h2 => ?_⟩
  · rw [hup, directional_prob_hi _ _ h]
    exact clamp_eq _ (by norm_num) (by norm_num)
  · rw [hup, directional_prob_lo _ _ h0 h]
    exact clamp_eq _ (by norm_num) (by norm_num)
  · rw [hup, directional_prob_mid _ _ h0 h1 h2]
    have hb := mid_bounds (f - t) (adjusted_std c) h0 h1 h2
    exact clamp_eq _ (by linarith [hb.1]) (by linarith [hb.2])
  · rw [hdn, directional_prob_hi _ _ h]
    exact clamp_eq _ (by norm_num) (by norm_num)
  · rw [hdn, directional_prob_lo _ _ h0 h]
    exact clamp_eq _ (by norm_num) (by norm_num)
  · rw [hdn, directional_prob_mid _ _ h0 h1 h2]
    have hb := mid_bounds (t - f) (adjusted_std c) h0 h1 h2
    exact clamp_eq _ (by linarith [hb.1]) (by linarith [hb.2])

/-- C5 (witness): a forecast 3°C above an AT_OR_ABOVE threshold at
confidence 0.5 (band 1.5°C) maps to 0.90. -/
theorem probability_band_witness :
    calculate_probability 3 0 false true (1/2) = 9/10 :=
  (probability_band 3 0 (1/2) (by norm_num)).1 (by with_unfolding_all decide)

/-- C6 (counterexample): a non-domestic candidate that used a local source,
passes every other filter, and whose two sources differ by 1.5°C is
rejected by the entry filter; tightening the disagreement to 0.5°C makes
the very same candidate pass — so the 1°C check does apply to local-source
non-domestic candidates, contrary to the claim. -/
theorem source_agreement_filter_counterexample :
    cOpp6.has_local = true
    ∧ opp_is_us cOpp6 = false
    ∧ entryFilter cOpp6 = false
    ∧ entryFilter { cOpp6 with indiv_high_c := [27, 55/2] } = true := by
  with_unfolding_all decide

/-- C6 (amended): the 1.0°C source-agreement filter applies to every
non-domestic candidate with a nonempty individual-forecast list — local
source or not — rejecting it whenever the individual highs differ by more
than 1.0°C. -/
theorem source_agreement_filter_all_non_us (opp : Opp)
    (hus : opp_is_us opp = false)
    (hne : opp.indiv_high_c ≠ [])
    (hsp : 1 < listMax opp.indiv_high_c - listMin opp.indiv_high_c) :
    entryFilter opp = false := by
  unfold entryFilter
  split_ifs <;> simp_all

/-- C6 (witness): the amended theorem applied to the concrete candidate. -/
theorem source_agreement_filter_all_non_us_witness :
    entryFilter cOpp6 = false :=
  source_agreement_filter_all_non_us cOpp6 (by with_unfolding_all decide)
    (by with_unfolding_all decide) (by with_unfolding_all decide)

/-- C7: any ensemble built from at least 2 samples whose high-estimate
spread is at most 2°C and which is not flagged for local disagreement has
confidence at least 0.80 (in fact at least 0.875). -/
theorem tight_spread_confidence_floor
    (glob : List SForecast) (loc : Option SForecast) (is_us : Bool) (r : EnsembleResult)
    (h : get_ensemble_forecast glob loc is_us = some r)
    (hn : 2 ≤ (glob ++ loc.toList).length)
    (hs : spread_of (glob ++ loc.toList) ≤ 2)
    (hd : r.local_disagrees = false) :
    4/5 ≤ r.confidence := by
  unfold get_ensemble_forecast at h
  split at h
  · simp at h
  · rw [Option.some_inj] at h
    subst h
    rw [apply_disagreement_of_flag _ _ _ hd]
    have hb := base_confidence_ge (glob ++ loc.toList).length (spread_of (glob ++ loc.toList))
      hn hs
    simp only [ensemble_base]
    linarith

/-- C7 (witness): two globals 1°C apart give confidence 0.95 ≥ 0.80. -/
theorem tight_spread_confidence_floor_witness :
    4/5 ≤ r7.confidence :=
  tight_spread_confidence_floor cG7 none false r7
    (by with_unfolding_all decide) (by with_unfolding_all decide)
    (by with_unfolding_all decide) (by with_unfolding_all decide)

/-- C8 (counterexample): a position with cost basis $5.00, value exactly
$6.50, 10 hours from resolution and Consensus Hold not applying, whose
edge at entry was only 10%: the reconstructed edge at 65¢ is 0%, so the
higher-priority Edge Evaporation trigger fires and Profit Target is never
reached — refuting the unconditional claim. -/
theorem profit_target_edge_evap_counterexample :
    cpos8.cost_basis = 5
    ∧ cpos8.shares * (13/20) = 13/2
    ∧ cpos8.market_date = some 10
    ∧ check_consensus_hold cpos8 [] 25 false (13/20) = false
    ∧ monitor_decision cpos8 [] 25 false (13/20) = MonitorAction.exitWith Trigger.edge_evap
    ∧ monitor_decision cpos8 [] 25 false (13/20) ≠ MonitorAction.exitWith Trigger.profit := by
  with_unfolding_all decide

/-- C8 (amended): with cost basis $5.00, value exactly $6.50, more than 8
hours to resolution, Consensus Hold not applying, AND a recalculated edge
of at least 10% (so Edge Evaporation does not pre-empt), the evaluation
returns the Profit Target trigger. -/
theorem profit_target_fires_with_edge_intact
    (pos : Position) (forecasts : List MarketForecast) (threshold : ℚ) (is_us_market : Bool)
    (current_price : ℚ) (t : ℚ)
    (hcost : pos.cost_basis = 5)
    (hvalue : pos.shares * current_price = 13/2)
    (hdate : pos.market_date = some t) (ht : 8 < t)
    (hedge : 10 ≤ recalculate_edge pos current_price)
    (hch : check_consensus_hold pos forecasts threshold is_us_market current_price = false) :
    monitor_decision pos forecasts threshold is_us_market current_price
      = MonitorAction.exitWith Trigger.profit := by
  have h1 : hours_to_resolution pos.market_date = some t := hdate
  have httl : ttl_below_8 (hours_to_resolution pos.market_date) = false := by
    rw [h1]
    simp only [ttl_below_8, decide_eq_false_iff_not]
    linarith
  have hexit : check_exit_triggers pos current_price = some Trigger.profit := by
    unfold check_exit_triggers
    rw [httl, hvalue, hcost]
    rw [if_neg (by simp), if_neg (by norm_num),
      if_neg (fun hx => absurd hx.2 (not_lt.mpr hedge)), if_pos (by norm_num)]
  simp [monitor_decision, hch, hexit]

/-- C8 (witness): the amended theorem on the 30%-edge position. -/
theorem profit_target_fires_with_edge_intact_witness :
    monitor_decision basePosition [] 25 false (13/20) = MonitorAction.exitWith Trigger.profit :=
  profit_target_fires_with_edge_intact basePosition [] 25 false (13/20) 10
    (by with_unfolding_all decide) (by with_unfolding_all decide) rfl
    (by with_unfolding_all decide) (by with_unfolding_all decide)
    (by with_unfolding_all decide)

/-- C9: whenever the time to resolution parses below 8 hours and Consensus
Hold does not apply, the Time trigger fires — regardless of price, so in
particular Stop Loss never decides the action inside the final 8 hours. -/
theorem time_exit_under_8_hours
    (pos : Position) (forecasts : List MarketForecast) (threshold : ℚ) (is_us_market : Bool)
    (current_price : ℚ) (t : ℚ)
    (hdate : pos.market_date = some t) (ht : t < 8)
    (hch : check_consensus_hold pos forecasts threshold is_us_market current_price = false) :
    monitor_decision pos forecasts threshold is_us_market current_price
      = MonitorAction.exitWith Trigger.time := by
  have h1 : hours_to_resolution pos.market_date = some t := hdate
  have httl : ttl_below_8 (hours_to_resolution pos.market_date) = true := by
    rw [h1]
    simp only [ttl_below_8]
    exact decide_eq_true ht
  have hexit : check_exit_triggers pos current_price = some Trigger.time := by
    unfold check_exit_triggers
    rw [httl]
    rw [if_pos rfl]
  simp [monitor_decision, hch, hexit]

/-- C9 (witness): 7.9 hours out at a price putting the value at 75% of cost
basis, the action is the Time exit, not Stop Loss. -/
theorem time_exit_under_8_hours_witness :
    monitor_decision cpos9 [] 25 false (3/8) = MonitorAction.exitWith Trigger.time :=
  time_exit_under_8_hours cpos9 [] 25 false (3/8) (79/10) rfl
    (by with_unfolding_all decide) (by with_unfolding_all decide)

/-- C10: for a position whose market_date fails to parse, the resolution
time defaults to 720 hours (30 days) ahead, so the Consensus Hold check
returns false on every input, while the Time exit can never fire — only
Stop Loss, Edge Evaporation and Profit Target can act. -/
theorem unparseable_date_behavior
    (pos : Position) (h : pos.market_date = none)
    (forecasts : List MarketForecast) (threshold : ℚ) (is_us_market : Bool)
    (current_price : ℚ) :
    parse_resolution_time pos.market_date = 720
    ∧ check_consensus_hold pos forecasts threshold is_us_market current_price = false
    ∧ check_exit_triggers pos current_price ≠ some Trigger.time := by
  have hparse : parse_resolution_time pos.market_date = 720 := by
    unfold parse_resolution_time
    rw [h]
    rfl
  refine ⟨hparse, ?_, ?_⟩
  · unfold check_consensus_hold
    rw [hparse]
    by_cases hl : forecasts.length < 2
    · rw [if_pos hl]
    · rw [if_neg hl]
      by_cases ha : forecasts.any (fun f => f.is_local) = false
      · rw [if_pos ha]
      · rw [if_neg ha, if_pos (by norm_num : (24 : ℚ) < 720)]
  · have h1 : hours_to_resolution pos.market_date = none := h
    have httl : ttl_below_8 (hours_to_resolution pos.market_date) = false := by
      rw [h1]
      rfl
    unfold check_exit_triggers
    rw [httl]
    rw [if_neg (by simp)]
    split_ifs <;> simp

/-- C10 (witness): the theorem on a concrete unparseable-date position,
with a forecast set that passes the source checks — the consensus hold
fails exactly on the 720-hour window. -/
theorem unparseable_date_behavior_witness :
    parse_resolution_time cpos10.market_date = 720
    ∧ check_consensus_hold cpos10 cfor1 25 false (13/20) = false
    ∧ check_exit_triggers cpos10 (13/20) ≠ some Trigger.time :=
  unparseable_date_behavior cpos10 rfl cfor1 25 false (13/20)
